import Mathlib

/-!
Shallow embedding of the JobShield rule-based risk scoring engine
(src/api/services.py).  Texts are modelled as lists of characters.
Python string operations are modelled on the ASCII fragment, which is
all that the rule catalogs and the regular expressions in the source
use.  External collaborators (the requests page fetch, BeautifulSoup
text extraction, tldextract domain parsing) enter as parameters of the
orchestrators, mirroring the narrow interfaces the spec describes.
-/

/-- ASCII lower-casing of one character: the fragment of Python
str.lower that the catalogs exercise (all keywords are ASCII). -/
def asciiLower (c : Char) : Char :=
  if 'A' ≤ c ∧ c ≤ 'Z' then Char.ofNat (c.toNat + 32) else c

/-- Python str.lower on a text, ASCII fragment. -/
def lowerL (s : List Char) : List Char := s.map asciiLower

/-- Python regex word character (the ASCII fragment of re's w class):
letters, digits and the underscore. -/
def isWordChar (c : Char) : Bool := c.isAlphanum || c == '_'

/-- The w+dot+dash character class of the free-email regex. -/
def emailNameChar (c : Char) : Bool := isWordChar c || c == '.' || c == '-'

/-- The `w.length` characters of `s` starting at index `i` are exactly `w`
(and they all exist).  Building block for substring and regex search. -/
def sliceEq (w s : List Char) (i : Nat) : Bool :=
  decide (i + w.length ≤ s.length) &&
  (List.range w.length).all (fun j => s.getD (i + j) ' ' == w.getD j ' ')

/-- Python substring containment `n in h` on character lists. -/
def containsSub (n h : List Char) : Bool :=
  (List.range (h.length + 1)).any (fun i => sliceEq n h i)

/-- Python `s.startswith(p)` (case sensitive, like the source call). -/
def startsWithL (p s : List Char) : Bool := sliceEq p s 0

/-- A regex word boundary holds to the left of index `i` in `t`. -/
def leftBoundaryOk (t : List Char) (i : Nat) : Bool :=
  i == 0 || !(isWordChar (t.getD (i - 1) ' '))

/-- A regex word boundary holds at index `j` in `t` (the position just
after a candidate match). -/
def rightBoundaryOk (t : List Char) (j : Nat) : Bool :=
  decide (t.length ≤ j) || !(isWordChar (t.getD j ' '))

/-- Case-insensitive regex search for an alternation of word-bounded
words, the semantics of a Python pattern of the shape
b(w1|w2|...)b under re.IGNORECASE: some alternative occurs at some
index of the lower-cased text with word boundaries on both sides. -/
def reSearchWords (ws : List (List Char)) (s : List Char) : Bool :=
  (List.range ((lowerL s).length + 1)).any (fun i =>
    ws.any (fun w =>
      sliceEq w (lowerL s) i && leftBoundaryOk (lowerL s) i &&
        rightBoundaryOk (lowerL s) (i + w.length)))

/-- The three provider-domain literals of the free-email regex, each
the text that must follow an at sign for the regex to match. -/
def freeEmailProviders : List (List Char) :=
  (["gmail.com", "yahoo.com", "outlook.com"]).map String.data

/-- Case-insensitive search semantics of the source regex
[w.-]+@(gmail|yahoo|outlook).com : an at sign preceded by at least one
name-class character and followed by one of the provider literals.
The pattern has no trailing anchor or boundary. -/
def reSearchFreeEmail (s : List Char) : Bool :=
  (List.range (s.length + 1)).any (fun i =>
    decide (1 ≤ i) && emailNameChar ((lowerL s).getD (i - 1) ' ') &&
      ((lowerL s).getD i ' ' == '@') &&
      freeEmailProviders.any (fun d => sliceEq d (lowerL s) (i + 1)))

/-- The two regex shapes that occur in the message catalog. -/
inductive Rgx : Type
  | wordAlt : List (List Char) → Rgx
  | freeEmail : Rgx
  deriving DecidableEq

/-- Semantics of a catalog regex: case-insensitive search anywhere in
the text, as re.search with re.IGNORECASE does in the source. -/
def Rgx.search : Rgx → List Char → Bool
  | Rgx.wordAlt ws, s => reSearchWords ws s
  | Rgx.freeEmail, s => reSearchFreeEmail s

/-- One detection rule.  The source stores rules as dicts whose
optional entries differ per catalog, modelled as optional fields. -/
structure Rule where
  name : String
  weight : Nat
  keywords : Option (List (List Char)) := none
  regex : Option Rgx := none
  domains : Option (List String) := none
  explanation : String
  advice : String
  deriving DecidableEq

/-- Message rule: Payment Request (SCAM_PATTERNS[0]). -/
def paymentRequestRule : Rule :=
  { name := "Payment Request"
    weight := 50
    keywords := some ((["payment", "fee", "charge", "cost", "send money", "Ksh", "KES"]).map String.data)
    regex := none
    explanation := "Requests for payment are a major red flag. Legitimate employers do not ask for money."
    advice := "Never send money for a job application or offer." }

/-- Message rule: Urgency Manipulation (SCAM_PATTERNS[1]). -/
def urgencyRule : Rule :=
  { name := "Urgency Manipulation"
    weight := 25
    keywords := some ((["urgent", "immediately", "now", "limited time", "act fast"]).map String.data)
    regex := none
    explanation := "Scammers create a sense of urgency to prevent you from thinking critically."
    advice := "Take your time to evaluate any job offer. High-pressure tactics are suspicious." }

/-- Message rule: Off-Platform Communication (SCAM_PATTERNS[2]); its
regex is the word-bounded alternation of whatsapp and telegram. -/
def offPlatformRule : Rule :=
  { name := "Off-Platform Communication"
    weight := 30
    keywords := some ((["whatsapp", "telegram"]).map String.data)
    regex := some (Rgx.wordAlt ((["whatsapp", "telegram"]).map String.data))
    explanation := "Recruiters moving conversations to personal messaging apps may be trying to evade platform safety features."
    advice := "Keep communication on official platforms (e.g., LinkedIn, company email)." }

/-- Message rule: Free Email Recruiter (SCAM_PATTERNS[3]). -/
def freeEmailRecruiterRule : Rule :=
  { name := "Free Email Recruiter"
    weight := 20
    keywords := some ((["@gmail.com", "@yahoo.com", "@outlook.com"]).map String.data)
    regex := some Rgx.freeEmail
    explanation := "Legitimate recruiters usually use corporate email addresses. Free email accounts can be a sign of a scam."
    advice := "Verify the recruiter\x27s email address and cross-reference it with the company\x27s official domain." }

/-- Message rule: Unrealistic Job Promises (SCAM_PATTERNS[4]). -/
def unrealisticJobRule : Rule :=
  { name := "Unrealistic Job Promises"
    weight := 35
    keywords := some ((["guaranteed income", "high salary", "no experience needed", "work from home"]).map String.data)
    regex := none
    explanation := "Offers that sound too good to be true often are. Be wary of promises of high income for little work."
    advice := "Research typical salaries and requirements for the role you are applying for." }

/-- The message catalog SCAM_PATTERNS of the source, in order. -/
def SCAM_PATTERNS : List Rule :=
  [paymentRequestRule, urgencyRule, offPlatformRule, freeEmailRecruiterRule, unrealisticJobRule]

/-- Website rule: No HTTPS (WEBSITE_SCAM_PATTERNS[0]). -/
def noHttpsRule : Rule :=
  { name := "No HTTPS"
    weight := 20
    explanation := "The website does not use HTTPS, which is a basic security measure. This can be a sign of a fraudulent website."
    advice := "Avoid entering personal information on unencrypted websites." }

/-- Website rule: Newly Registered Domain (WEBSITE_SCAM_PATTERNS[1]). -/
def newDomainRule : Rule :=
  { name := "Newly Registered Domain"
    weight := 30
    explanation := "The website\x27s domain was registered very recently. Scammers often use new domains for short-lived fraudulent websites."
    advice := "Be cautious with new websites, especially if they are asking for personal information or payment." }

/-- Website rule: Payment Instructions in Text (WEBSITE_SCAM_PATTERNS[2]). -/
def paymentTextRule : Rule :=
  { name := "Payment Instructions in Text"
    weight := 40
    keywords := some ((["payment", "fee", "charge", "cost", "send money", "Ksh", "KES"]).map String.data)
    explanation := "The website contains instructions for making a payment. Legitimate job sites do not ask for payment."
    advice := "Do not make any payments for job applications or training." }

/-- Website rule: No Contact Info (WEBSITE_SCAM_PATTERNS[3]). -/
def noContactRule : Rule :=
  { name := "No Contact Info"
    weight := 25
    explanation := "The website does not provide clear contact information, such as an address or phone number."
    advice := "Legitimate companies provide multiple ways to contact them. Lack of contact info is a red flag." }

/-- Website rule: Unrealistic Promises (WEBSITE_SCAM_PATTERNS[4]). -/
def unrealisticPromisesRule : Rule :=
  { name := "Unrealistic Promises"
    weight := 35
    keywords := some ((["guaranteed income", "high salary", "no experience needed", "work from home"]).map String.data)
    explanation := "The website makes unrealistic promises about salary or job requirements."
    advice := "If a job offer sounds too good to be true, it probably is." }

/-- The website catalog WEBSITE_SCAM_PATTERNS of the source, in order. -/
def WEBSITE_SCAM_PATTERNS : List Rule :=
  [noHttpsRule, newDomainRule, paymentTextRule, noContactRule, unrealisticPromisesRule]

/-- Email rule: Free Email Domain (EMAIL_SCAM_PATTERNS[0]). -/
def freeEmailDomainRule : Rule :=
  { name := "Free Email Domain"
    weight := 40
    domains := some ["gmail.com", "yahoo.com", "outlook.com", "aol.com"]
    explanation := "The email was sent from a free email domain, which is uncommon for legitimate companies."
    advice := "Verify the sender\x27s email address and cross-reference it with the company\x27s official domain." }

/-- Email rule: Payment Request (EMAIL_SCAM_PATTERNS[1]). -/
def emailPaymentRule : Rule :=
  { name := "Payment Request"
    weight := 50
    keywords := some ((["payment", "fee", "charge", "cost", "send money", "Ksh", "KES"]).map String.data)
    explanation := "The email requests payment, which is a major red flag for job scams."
    advice := "Never send money for a job application or offer." }

/-- Email rule: Urgency Manipulation (EMAIL_SCAM_PATTERNS[2]). -/
def emailUrgencyRule : Rule :=
  { name := "Urgency Manipulation"
    weight := 25
    keywords := some ((["urgent", "immediately", "now", "limited time", "act fast"]).map String.data)
    explanation := "The email creates a sense of urgency to pressure you into making a quick decision."
    advice := "Take your time to evaluate any job offer. High-pressure tactics are suspicious." }

/-- Email rule: Poor Grammar / Unusual Formatting (EMAIL_SCAM_PATTERNS[3]). -/
def poorGrammarRule : Rule :=
  { name := "Poor Grammar / Unusual Formatting"
    weight := 15
    explanation := "The email contains grammatical errors or has unusual formatting, which can be a sign of a scam."
    advice := "Read emails carefully and be wary of unprofessional communication." }

/-- The email catalog EMAIL_SCAM_PATTERNS of the source, in order. -/
def EMAIL_SCAM_PATTERNS : List Rule :=
  [freeEmailDomainRule, emailPaymentRule, emailUrgencyRule, poorGrammarRule]

/-- The response shape every analyzer returns (the dict built at the
end of analyze_message, analyze_link and analyze_email). -/
structure AnalysisResult where
  risk_level : String
  risk_score : Nat
  detected_patterns : List String
  explanation : String
  advice : String
  deriving DecidableEq

/-- The mutable accumulators of one analysis run: risk_score,
detected_patterns, explanations, advices. -/
structure RunState where
  score : Nat
  patterns : List String
  explanations : List String
  advices : List String
  deriving DecidableEq

/-- The initial accumulator state of every analyzer. -/
def RunState.init : RunState := { score := 0, patterns := [], explanations := [], advices := [] }

/-- The four appends the source performs whenever a rule fires. -/
def addEvidence (st : RunState) (r : Rule) : RunState :=
  { score := st.score + r.weight
    patterns := st.patterns ++ [r.name]
    explanations := st.explanations ++ [r.explanation]
    advices := st.advices ++ [r.advice] }

/-- One loop iteration: add the evidence of `r` when the predicate
decides that `r` matched, else leave the state unchanged. -/
def ruleStep (p : Rule → Bool) (st : RunState) (r : Rule) : RunState :=
  if p r then addEvidence st r else st

/-- The if/elif/else chain mapping a capped score to a tier, shared
verbatim by all three analyzers in the source. -/
def risk_level_of (s : Nat) : String :=
  if s ≤ 30 then "LOW" else if s ≤ 60 then "MEDIUM" else "HIGH"

/-- Space-join a list of strings, as the join call in the source. -/
def joinSp (l : List String) : String := " ".intercalate l

/-- Sentinel explanation used when no rule matched. -/
def noRiskSentinel : String := "No significant risk patterns were detected."

/-- Sentinel advice used when no rule matched. -/
def cautionSentinel : String := "Always remain cautious and verify employer details."

/-- The shared tail of all three analyzers: cap the score at 100, map
it to a tier, and join explanations and advice or fall back to the
sentinels.  (analyze_email additionally deduplicates the pattern
names; it post-processes this result.) -/
def aggregate (st : RunState) : AnalysisResult :=
  { risk_level := risk_level_of (min st.score 100)
    risk_score := min st.score 100
    detected_patterns := st.patterns
    explanation := if st.explanations.isEmpty then noRiskSentinel else joinSp st.explanations
    advice := if st.advices.isEmpty then cautionSentinel else joinSp st.advices }

/-- The per-rule decision of analyze_message: a rule with a (truthy)
regex entry is decided only by the case-insensitive regex search; a
rule without one only by the case-insensitive any-keyword substring
test.  Every message rule defines keywords, so the default for the
none branch is never exercised on the catalog. -/
def msgMatch (t : List Char) (r : Rule) : Bool :=
  match r.regex with
  | some rx => rx.search t
  | none => (r.keywords.getD []).any (fun k => containsSub (lowerL k) (lowerL t))

/-- analyze_message of the source: run every catalog rule once, in
order, then aggregate. -/
def analyze_message (message_text : List Char) : AnalysisResult :=
  aggregate (SCAM_PATTERNS.foldl (ruleStep (msgMatch message_text)) RunState.init)

/-- The response the requests collaborator hands back when the network
call itself succeeds: a status code and a body. -/
structure HttpResponse where
  status_code : Nat
  content : List Char
  deriving DecidableEq

/-- Model of response.raise_for_status of the requests library: it
raises exactly for client errors (4xx) and server errors (5xx). -/
def raise_for_status (r : HttpResponse) : Except String Unit :=
  if 400 ≤ r.status_code ∧ r.status_code < 600 then
    Except.error ("HTTP status " ++ toString r.status_code)
  else Except.ok ()

/-- Model of _fetch_url_content: `net` is the outcome of the external
requests.get call (an exception such as a timeout or refused
connection, or a response).  A RequestException, including the one
raise_for_status throws, is re-raised as a ValueError with the
prefixed message. -/
def fetch_url_content (net : Except String HttpResponse) : Except String (List Char) :=
  match net with
  | Except.error e => Except.error ("Could not fetch URL: " ++ e)
  | Except.ok resp =>
    match raise_for_status resp with
    | Except.error e => Except.error ("Could not fetch URL: " ++ e)
    | Except.ok _ => Except.ok resp.content

/-- Model of _get_domain_age_in_days: the source stub ignores the
domain and always answers 365 days. -/
def get_domain_age_in_days (domain : String) : Nat := 365

/-- The per-rule decision of the content loop of analyze_link (step 4
of the source, over WEBSITE_SCAM_PATTERNS[2:]): a rule without a
keywords entry never fires there. -/
def linkKwMatch (t : List Char) (r : Rule) : Bool :=
  match r.keywords with
  | some ks => ks.any (fun k => containsSub (lowerL k) (lowerL t))
  | none => false

/-- The word-bounded tokens of the contact-info check regex. -/
def contactTokens : List (List Char) := (["contact", "address", "phone"]).map String.data

/-- The literal the source compares the URL against. -/
def httpsLit : List Char := "https://".data

/-- The pure part of analyze_link once the fetch has produced the
extracted page text: the HTTPS check (which the source runs before
the fetch; it is pure, so factoring it here preserves behaviour and
the evidence order), the domain-age rule guarded by the possibly
failing collaborator outcome, the content-keyword loop over
WEBSITE_SCAM_PATTERNS[2:], the contact-info check, and aggregation. -/
def link_ok_result (url text : List Char) (domainAge : Except Unit Nat) : AnalysisResult :=
  let st1 := if startsWithL httpsLit url then RunState.init else addEvidence RunState.init noHttpsRule
  let st3 :=
    match domainAge with
    | Except.ok age => if age < 90 then addEvidence st1 newDomainRule else st1
    | Except.error _ => st1
  let st4 := (WEBSITE_SCAM_PATTERNS.drop 2).foldl (ruleStep (linkKwMatch text)) st3
  let st5 := if reSearchWords contactTokens text then st4 else addEvidence st4 noContactRule
  aggregate st5

/-- analyze_link of the source.  `net` is the outcome of the external
page fetch, `extractText` the external BeautifulSoup text extraction,
and `domainAge` the outcome of the domain-age step (tldextract plus
the age lookup), which the source guards with a catch-all except.  A
fetch failure is re-raised to the caller. -/
def analyze_link (url : List Char) (net : Except String HttpResponse)
    (extractText : List Char → List Char) (domainAge : Except Unit Nat) :
    Except String AnalysisResult :=
  match fetch_url_content net with
  | Except.error e => Except.error e
  | Except.ok content => Except.ok (link_ok_result url (extractText content) domainAge)

/-- The per-rule decision of step 1 of analyze_email: a rule with a
domains entry fires when the sender domain is listed. -/
def emailDomMatch (dom : String) (r : Rule) : Bool :=
  match r.domains with
  | some ds => ds.contains dom
  | none => false

/-- The per-rule decision of step 2 of analyze_email: a rule with a
keywords entry fires when any keyword occurs in the lowered body (the
inner break makes one firing per rule). -/
def emailKwMatch (t : List Char) (r : Rule) : Bool :=
  match r.keywords with
  | some ks => ks.any (fun k => containsSub (lowerL k) (lowerL t))
  | none => false

/-- The informal-language token list of the style check. -/
def common_mistakes : List (List Char) := (["kindley", "ur", "pls"]).map String.data

/-- Step 3 of analyze_email: some common mistake occurs as a substring
of the lowered body (the break makes at most one firing). -/
def styleMatch (t : List Char) : Bool :=
  common_mistakes.any (fun m => containsSub m (lowerL t))

/-- analyze_email of the source.  `sender_domain` is the registrable
domain of the sender address as the external tldextract collaborator
formats it (domain.suffix).  The source converts detected_patterns
through list(set(...)), whose ordering Python leaves unspecified;
this is modelled as first-occurrence deduplication, and the theorems
about it only use set-level facts. -/
def analyze_email (email_text : List Char) (sender_domain : String) : AnalysisResult :=
  let st1 := EMAIL_SCAM_PATTERNS.foldl (ruleStep (emailDomMatch sender_domain)) RunState.init
  let st2 := EMAIL_SCAM_PATTERNS.foldl (ruleStep (emailKwMatch email_text)) st1
  let st3 := if styleMatch email_text then addEvidence st2 poorGrammarRule else st2
  { aggregate st3 with detected_patterns := st3.patterns.dedup }

/-- Running an evidence loop adds exactly the weights of the rules the
predicate accepts, in catalog order. -/
theorem foldl_ruleStep_score (p : Rule → Bool) :
    ∀ (l : List Rule) (st : RunState),
      (l.foldl (ruleStep p) st).score =
        st.score + ((l.filter p).map Rule.weight).sum := by
  intro l
  induction l with
  | nil => intro st; simp
  | cons r tl ih =>
      intro st
      cases hp : p r with
      | true =>
          simp only [List.foldl_cons, ruleStep, hp, if_true, List.filter_cons,
            List.map_cons, List.sum_cons, ih, addEvidence]
          omega
      | false =>
          simp [List.foldl_cons, ruleStep, hp, List.filter_cons, ih]

/-- Running an evidence loop appends exactly the names of the rules the
predicate accepts, in catalog order. -/
theorem foldl_ruleStep_patterns (p : Rule → Bool) :
    ∀ (l : List Rule) (st : RunState),
      (l.foldl (ruleStep p) st).patterns =
        st.patterns ++ (l.filter p).map Rule.name := by
  intro l
  induction l with
  | nil => intro st; simp
  | cons r tl ih =>
      intro st
      cases hp : p r with
      | true =>
          simp [List.foldl_cons, ruleStep, hp, List.filter_cons, ih, addEvidence,
            List.append_assoc]
      | false =>
          simp [List.foldl_cons, ruleStep, hp, List.filter_cons, ih]

/-- Sum of the weights of the message rules matching `t`. -/
def msg_matched_weight (t : List Char) : Nat :=
  ((SCAM_PATTERNS.filter (msgMatch t)).map Rule.weight).sum

/-- Sum of the weights of the link rules matching the given URL,
extracted text and domain-age outcome, step by step. -/
def link_matched_weight (url text : List Char) (domainAge : Except Unit Nat) : Nat :=
  (if startsWithL httpsLit url then 0 else noHttpsRule.weight) +
  (match domainAge with
   | Except.ok age => if age < 90 then newDomainRule.weight else 0
   | Except.error _ => 0) +
  (((WEBSITE_SCAM_PATTERNS.drop 2).filter (linkKwMatch text)).map Rule.weight).sum +
  (if reSearchWords contactTokens text then 0 else noContactRule.weight)

/-- Names of the link rules matching, in the evidence order of the
source (HTTPS check, domain age, content keywords, contact info). -/
def link_evidence_names (url text : List Char) (domainAge : Except Unit Nat) : List String :=
  (if startsWithL httpsLit url then [] else [noHttpsRule.name]) ++
  (match domainAge with
   | Except.ok age => if age < 90 then [newDomainRule.name] else []
   | Except.error _ => []) ++
  ((WEBSITE_SCAM_PATTERNS.drop 2).filter (linkKwMatch text)).map Rule.name ++
  (if reSearchWords contactTokens text then [] else [noContactRule.name])

/-- Sum of the weights of the email rules matching, step by step. -/
def email_matched_weight (t : List Char) (dom : String) : Nat :=
  ((EMAIL_SCAM_PATTERNS.filter (emailDomMatch dom)).map Rule.weight).sum +
  ((EMAIL_SCAM_PATTERNS.filter (emailKwMatch t)).map Rule.weight).sum +
  (if styleMatch t then poorGrammarRule.weight else 0)

/-- Names of the email rules matching, in collection order (domain
check, keyword loop, style check), before the set conversion. -/
def email_evidence_names (t : List Char) (dom : String) : List String :=
  (EMAIL_SCAM_PATTERNS.filter (emailDomMatch dom)).map Rule.name ++
  (EMAIL_SCAM_PATTERNS.filter (emailKwMatch t)).map Rule.name ++
  (if styleMatch t then [poorGrammarRule.name] else [])

/-- The message score is the capped sum of matched weights. -/
theorem analyze_message_score (t : List Char) :
    (analyze_message t).risk_score = min 100 (msg_matched_weight t) := by
  simp [analyze_message, aggregate, msg_matched_weight, foldl_ruleStep_score,
    RunState.init, Nat.min_comm]

/-- The message pattern list is the matched names in catalog order. -/
theorem analyze_message_patterns (t : List Char) :
    (analyze_message t).detected_patterns = (SCAM_PATTERNS.filter (msgMatch t)).map Rule.name := by
  simp [analyze_message, aggregate, foldl_ruleStep_patterns, RunState.init]

/-- The message tier is computed from the message score. -/
theorem analyze_message_level (t : List Char) :
    (analyze_message t).risk_level = risk_level_of (analyze_message t).risk_score := rfl

/-- The link score is the capped sum of matched weights. -/
theorem link_ok_result_score (url text : List Char) (dm : Except Unit Nat) :
    (link_ok_result url text dm).risk_score = min 100 (link_matched_weight url text dm) := by
  cases dm with
  | error u =>
      by_cases h1 : startsWithL httpsLit url <;>
        by_cases h5 : reSearchWords contactTokens text <;>
          simp [link_ok_result, aggregate, link_matched_weight, h1, h5,
            foldl_ruleStep_score, addEvidence, RunState.init, Nat.min_comm]
  | ok age =>
      by_cases h1 : startsWithL httpsLit url <;>
        by_cases h2 : age < 90 <;>
          by_cases h5 : reSearchWords contactTokens text <;>
            simp [link_ok_result, aggregate, link_matched_weight, h1, h2, h5,
              foldl_ruleStep_score, addEvidence, RunState.init, Nat.min_comm]

/-- The link pattern list is the matched names in step order. -/
theorem link_ok_result_patterns (url text : List Char) (dm : Except Unit Nat) :
    (link_ok_result url text dm).detected_patterns = link_evidence_names url text dm := by
  cases dm with
  | error u =>
      by_cases h1 : startsWithL httpsLit url <;>
        by_cases h5 : reSearchWords contactTokens text <;>
          simp [link_ok_result, aggregate, link_evidence_names, h1, h5,
            foldl_ruleStep_patterns, addEvidence, RunState.init, List.append_assoc]
  | ok age =>
      by_cases h1 : startsWithL httpsLit url <;>
        by_cases h2 : age < 90 <;>
          by_cases h5 : reSearchWords contactTokens text <;>
            simp [link_ok_result, aggregate, link_evidence_names, h1, h2, h5,
              foldl_ruleStep_patterns, addEvidence, RunState.init, List.append_assoc]

/-- The link tier is computed from the link score. -/
theorem link_ok_result_level (url text : List Char) (dm : Except Unit Nat) :
    (link_ok_result url text dm).risk_level = risk_level_of (link_ok_result url text dm).risk_score := rfl

/-- When the fetch succeeds, analyze_link returns the pure result. -/
theorem analyze_link_eq_ok {url : List Char} {net : Except String HttpResponse}
    {ext : List Char → List Char} {dm : Except Unit Nat} {c : List Char}
    (h : fetch_url_content net = Except.ok c) :
    analyze_link url net ext dm = Except.ok (link_ok_result url (ext c) dm) := by
  unfold analyze_link
  rw [h]

/-- When the fetch fails, analyze_link re-raises the same error. -/
theorem analyze_link_eq_error {url : List Char} {net : Except String HttpResponse}
    {ext : List Char → List Char} {dm : Except Unit Nat} {e : String}
    (h : fetch_url_content net = Except.error e) :
    analyze_link url net ext dm = Except.error e := by
  unfold analyze_link
  rw [h]

/-- A successful analyze_link run comes from a successful fetch, and
its result is the pure pipeline on the extracted text. -/
theorem analyze_link_ok_inv {url : List Char} {net : Except String HttpResponse}
    {ext : List Char → List Char} {dm : Except Unit Nat} {r : AnalysisResult}
    (h : analyze_link url net ext dm = Except.ok r) :
    ∃ c, fetch_url_content net = Except.ok c ∧ r = link_ok_result url (ext c) dm := by
  unfold analyze_link at h
  cases hf : fetch_url_content net with
  | error e => rw [hf] at h; cases h
  | ok c =>
      rw [hf] at h
      injection h with h2
      exact ⟨c, rfl, h2.symm⟩

/-- The email score is the capped sum of matched weights. -/
theorem analyze_email_score (t : List Char) (dom : String) :
    (analyze_email t dom).risk_score = min 100 (email_matched_weight t dom) := by
  by_cases h3 : styleMatch t <;>
    simp [analyze_email, aggregate, email_matched_weight, h3, foldl_ruleStep_score,
      addEvidence, RunState.init, Nat.min_comm]

/-- The email pattern list is the deduplication of the collected
evidence names. -/
theorem analyze_email_patterns (t : List Char) (dom : String) :
    (analyze_email t dom).detected_patterns = (email_evidence_names t dom).dedup := by
  by_cases h3 : styleMatch t <;>
    simp [analyze_email, aggregate, email_evidence_names, h3, foldl_ruleStep_patterns,
      addEvidence, RunState.init, List.append_assoc]

/-- The email tier is computed from the email score. -/
theorem analyze_email_level (t : List Char) (dom : String) :
    (analyze_email t dom).risk_level = risk_level_of (analyze_email t dom).risk_score := rfl

/-- Membership of a rule name in the filtered name list is exactly the
match decision, provided the catalog names are distinct. -/
theorem name_mem_filter {l : List Rule} (hl : (l.map Rule.name).Nodup)
    {r : Rule} (hr : r ∈ l) (p : Rule → Bool) :
    (r.name ∈ (l.filter p).map Rule.name ↔ p r = true) := by
  constructor
  · intro h
    rcases List.mem_map.mp h with ⟨r2, hr2, hname⟩
    rcases List.mem_filter.mp hr2 with ⟨hr2l, hp2⟩
    have heq : r2 = r := List.inj_on_of_nodup_map hl hr2l hr hname
    rw [heq] at hp2
    exact hp2
  · intro hp
    exact List.mem_map.mpr ⟨r, List.mem_filter.mpr ⟨hr, hp⟩, rfl⟩

/-- The five message rule names are pairwise distinct. -/
theorem scam_names_nodup : (SCAM_PATTERNS.map Rule.name).Nodup := by decide

/-- Lower-casing distributes over append. -/
theorem lowerL_append (a b : List Char) : lowerL (a ++ b) = lowerL a ++ lowerL b :=
  List.map_append asciiLower a b

/-- The space character is fixed by lower-casing. -/
theorem asciiLower_space : asciiLower ' ' = ' ' := by decide

/-- A slice match forces the slice to lie inside the text. -/
theorem sliceEq_le {w s : List Char} {i : Nat} (h : sliceEq w s i = true) :
    i + w.length ≤ s.length := by
  unfold sliceEq at h
  rcases Bool.and_eq_true_iff.mp h with ⟨h1, _⟩
  exact of_decide_eq_true h1

/-- A slice match survives appending text on the right. -/
theorem sliceEq_append {w s : List Char} {i : Nat} (e : List Char)
    (h : sliceEq w s i = true) : sliceEq w (s ++ e) i = true := by
  have hle := sliceEq_le h
  unfold sliceEq at h ⊢
  rcases Bool.and_eq_true_iff.mp h with ⟨_, h2⟩
  apply Bool.and_eq_true_iff.mpr
  constructor
  · exact decide_eq_true (by rw [List.length_append]; omega)
  · apply List.all_eq_true.mpr
    intro j hj
    have hj2 := List.all_eq_true.mp h2 j hj
    have hjlt : i + j < s.length := by
      have := List.mem_range.mp hj
      omega
    rw [List.getD_append _ _ _ _ hjlt]
    exact hj2

/-- Substring containment survives appending text on the right. -/
theorem containsSub_append {n h : List Char} (e : List Char)
    (hc : containsSub n h = true) : containsSub n (h ++ e) = true := by
  unfold containsSub at hc ⊢
  rcases List.any_eq_true.mp hc with ⟨i, hi, hslice⟩
  apply List.any_eq_true.mpr
  refine ⟨i, ?_, sliceEq_append e hslice⟩
  have := List.mem_range.mp hi
  apply List.mem_range.mpr
  rw [List.length_append]
  omega

/-- A word-bounded match survives appending a space and further text:
the interior of the old text is unchanged, and when the match ended at
the old end of text the new next character is the non-word space. -/
theorem reSearchWords_append_space (ws : List (List Char)) (s k : List Char)
    (h : reSearchWords ws s = true) :
    reSearchWords ws (s ++ ' ' :: k) = true := by
  have hsplit : lowerL (s ++ ' ' :: k) = lowerL s ++ ' ' :: lowerL k := by
    rw [lowerL_append]
    simp [lowerL, asciiLower_space]
  unfold reSearchWords at h ⊢
  simp only [hsplit]
  rcases List.any_eq_true.mp h with ⟨i, hi, hin⟩
  rcases List.any_eq_true.mp hin with ⟨w, hw, hcond⟩
  rcases Bool.and_eq_true_iff.mp hcond with ⟨hcond1, hrb⟩
  rcases Bool.and_eq_true_iff.mp hcond1 with ⟨hslice, hlb⟩
  have hle := sliceEq_le hslice
  have hi2 := List.mem_range.mp hi
  apply List.any_eq_true.mpr
  refine ⟨i, ?_, ?_⟩
  · apply List.mem_range.mpr
    rw [List.length_append]
    omega
  · apply List.any_eq_true.mpr
    refine ⟨w, hw, ?_⟩
    apply Bool.and_eq_true_iff.mpr
    refine ⟨Bool.and_eq_true_iff.mpr ⟨sliceEq_append _ hslice, ?_⟩, ?_⟩
    · unfold leftBoundaryOk at hlb ⊢
      rcases Nat.eq_zero_or_pos i with hi0 | hipos
      · subst hi0
        simp
      · have hidx : i - 1 < (lowerL s).length := by omega
        rw [List.getD_append _ _ _ _ hidx]
        exact hlb
    · unfold rightBoundaryOk at hrb ⊢
      rcases Nat.lt_or_ge (i + w.length) (lowerL s).length with hjlt | hjge
      · rw [List.getD_append _ _ _ _ hjlt]
        rcases Bool.or_eq_true_iff.mp hrb with hd | hnw
        · exact absurd (of_decide_eq_true hd) (by omega)
        · exact Bool.or_eq_true_iff.mpr (Or.inr hnw)
      · have hjeq : i + w.length = (lowerL s).length := by omega
        apply Bool.or_eq_true_iff.mpr
        right
        rw [List.getD_append_right _ _ _ _ (by omega)]
        have hz : i + w.length - (lowerL s).length = 0 := by omega
        rw [hz, List.getD_cons_zero]
        decide

/-- A free-email match survives appending any text (the pattern has no
trailing boundary, and every inspected index lies inside the old
text). -/
theorem reSearchFreeEmail_append (s e : List Char)
    (h : reSearchFreeEmail s = true) : reSearchFreeEmail (s ++ e) = true := by
  unfold reSearchFreeEmail at h ⊢
  simp only [lowerL_append]
  rcases List.any_eq_true.mp h with ⟨i, hi, hcond⟩
  rcases Bool.and_eq_true_iff.mp hcond with ⟨h123, hdom⟩
  rcases Bool.and_eq_true_iff.mp h123 with ⟨h12, hat⟩
  rcases Bool.and_eq_true_iff.mp h12 with ⟨h1, hname⟩
  have h1le : 1 ≤ i := of_decide_eq_true h1
  have hilt : i < (lowerL s).length := by
    by_contra hge
    push_neg at hge
    rw [List.getD_eq_default _ _ hge] at hat
    exact absurd hat (by decide)
  apply List.any_eq_true.mpr
  refine ⟨i, ?_, ?_⟩
  · apply List.mem_range.mpr
    have hlen : (lowerL s).length = s.length := by simp [lowerL]
    rw [List.length_append]
    omega
  · apply Bool.and_eq_true_iff.mpr
    constructor
    · apply Bool.and_eq_true_iff.mpr
      constructor
      · apply Bool.and_eq_true_iff.mpr
        refine ⟨h1, ?_⟩
        have hidx : i - 1 < (lowerL s).length := by omega
        rw [List.getD_append _ _ _ _ hidx]
        exact hname
      · rw [List.getD_append _ _ _ _ hilt]
        exact hat
    · rcases List.any_eq_true.mp hdom with ⟨d, hd, hdslice⟩
      exact List.any_eq_true.mpr ⟨d, hd, sliceEq_append _ hdslice⟩

/-- The message match decision survives appending a space followed by
any further text, for every rule shape of the catalog. -/
theorem msgMatch_mono (t k : List Char) (r : Rule)
    (h : msgMatch t r = true) : msgMatch (t ++ ' ' :: k) r = true := by
  have hsplit : lowerL (t ++ ' ' :: k) = lowerL t ++ ' ' :: lowerL k := by
    rw [lowerL_append]
    simp [lowerL, asciiLower_space]
  unfold msgMatch at h ⊢
  cases hrx : r.regex with
  | none =>
      rw [hrx] at h
      rcases List.any_eq_true.mp h with ⟨kw, hkw, hc⟩
      apply List.any_eq_true.mpr
      refine ⟨kw, hkw, ?_⟩
      rw [hsplit]
      exact containsSub_append _ hc
  | some rx =>
      rw [hrx] at h
      cases rx with
      | wordAlt ws => exact reSearchWords_append_space ws t k h
      | freeEmail => exact reSearchFreeEmail_append t (' ' :: k) h

/-- Pointwise stronger match predicates give at most the matched
weight sum of the weaker one. -/
theorem sum_filter_mono {l : List Rule} {p q : Rule → Bool}
    (h : ∀ r ∈ l, p r = true → q r = true) :
    ((l.filter p).map Rule.weight).sum ≤ ((l.filter q).map Rule.weight).sum := by
  induction l with
  | nil => simp
  | cons r tl ih =>
      have htl : ∀ x ∈ tl, p x = true → q x = true :=
        fun x hx => h x (List.mem_cons_of_mem r hx)
      have hr := h r (List.mem_cons_self r tl)
      cases hp : p r with
      | true =>
          have hq := hr hp
          simp only [List.filter_cons, hp, hq, if_true, List.map_cons, List.sum_cons]
          exact Nat.add_le_add_left (ih htl) _
      | false =>
          cases hq : q r with
          | true =>
              simp only [List.filter_cons, hp, hq, Bool.false_eq_true, if_false, if_true,
                List.map_cons, List.sum_cons]
              exact le_trans (ih htl) (Nat.le_add_left _ _)
          | false =>
              simp only [List.filter_cons, hp, hq, Bool.false_eq_true, if_false]
              exact ih htl

/-- C1: for every input to analyze_message, to analyze_link (whenever
it returns a result) and to analyze_email, the returned risk_score
equals min(100, sum of the weights of the matched rules); being a
capped natural number it therefore lies in [0, 100]. -/
theorem C1_risk_score_capped_sum :
    (∀ t, (analyze_message t).risk_score = min 100 (msg_matched_weight t) ∧
      (analyze_message t).risk_score ≤ 100) ∧
    (∀ url net ext dm c r, fetch_url_content net = Except.ok c →
      analyze_link url net ext dm = Except.ok r →
      r.risk_score = min 100 (link_matched_weight url (ext c) dm) ∧ r.risk_score ≤ 100) ∧
    (∀ t dom, (analyze_email t dom).risk_score = min 100 (email_matched_weight t dom) ∧
      (analyze_email t dom).risk_score ≤ 100) := by
  refine ⟨?_, ?_, ?_⟩
  · intro t
    refine ⟨analyze_message_score t, ?_⟩
    rw [analyze_message_score t]
    exact Nat.min_le_left _ _
  · intro url net ext dm c r hf hr
    rcases analyze_link_ok_inv hr with ⟨c2, hf2, hre⟩
    rw [hf] at hf2
    injection hf2 with hc
    subst hc
    subst hre
    refine ⟨link_ok_result_score _ _ _, ?_⟩
    rw [link_ok_result_score]
    exact Nat.min_le_left _ _
  · intro t dom
    refine ⟨analyze_email_score t dom, ?_⟩
    rw [analyze_email_score t dom]
    exact Nat.min_le_left _ _

/-- Witness for C1: the link clause applied at a concrete fetched
page. -/
theorem C1_risk_score_capped_sum_witness :
    (link_ok_result ("http://x.com".data) ("pay a fee".data) (Except.ok 365)).risk_score =
      min 100 (link_matched_weight ("http://x.com".data) ("pay a fee".data) (Except.ok 365)) ∧
    (link_ok_result ("http://x.com".data) ("pay a fee".data) (Except.ok 365)).risk_score ≤ 100 :=
  C1_risk_score_capped_sum.2.1 ("http://x.com".data)
    (Except.ok { status_code := 200, content := ("pay a fee".data) }) id (Except.ok 365)
    ("pay a fee".data)
    (link_ok_result ("http://x.com".data) ("pay a fee".data) (Except.ok 365)) rfl rfl

/-- The tier clauses of the claim, for one result. -/
def tier_spec (r : AnalysisResult) : Prop :=
  (r.risk_score ≤ 30 → r.risk_level = "LOW") ∧
  (31 ≤ r.risk_score → r.risk_score ≤ 60 → r.risk_level = "MEDIUM") ∧
  (61 ≤ r.risk_score → r.risk_level = "HIGH")

/-- The shared tier chain satisfies the claimed interval mapping. -/
theorem risk_level_of_spec (s : Nat) :
    (s ≤ 30 → risk_level_of s = "LOW") ∧
    (31 ≤ s → s ≤ 60 → risk_level_of s = "MEDIUM") ∧
    (61 ≤ s → risk_level_of s = "HIGH") := by
  refine ⟨fun h => ?_, fun h1 h2 => ?_, fun h => ?_⟩ <;>
    unfold risk_level_of <;> split_ifs <;> first | rfl | omega

/-- A result whose level is the tier of its own score satisfies the
tier clauses. -/
theorem tier_spec_of_level {r : AnalysisResult}
    (h : r.risk_level = risk_level_of r.risk_score) : tier_spec r := by
  rcases risk_level_of_spec r.risk_score with ⟨h1, h2, h3⟩
  refine ⟨fun ha => ?_, fun ha hb => ?_, fun ha => ?_⟩
  · rw [h]; exact h1 ha
  · rw [h]; exact h2 ha hb
  · rw [h]; exact h3 ha

/-- C2: every result of the three analyzers carries risk_level LOW on
scores in [0,30], MEDIUM on [31,60] and HIGH on [61,100]; the
boundary scores 30, 31, 60 and 61 map to LOW, MEDIUM, MEDIUM and
HIGH. -/
theorem C2_risk_level_tiers :
    (∀ t, tier_spec (analyze_message t)) ∧
    (∀ url net ext dm r, analyze_link url net ext dm = Except.ok r → tier_spec r) ∧
    (∀ t dom, tier_spec (analyze_email t dom)) ∧
    risk_level_of 30 = "LOW" ∧ risk_level_of 31 = "MEDIUM" ∧
    risk_level_of 60 = "MEDIUM" ∧ risk_level_of 61 = "HIGH" := by
  refine ⟨?_, ?_, ?_, rfl, rfl, rfl, rfl⟩
  · intro t
    exact tier_spec_of_level (analyze_message_level t)
  · intro url net ext dm r hr
    rcases analyze_link_ok_inv hr with ⟨c, _, hre⟩
    subst hre
    exact tier_spec_of_level (link_ok_result_level _ _ _)
  · intro t dom
    exact tier_spec_of_level (analyze_email_level t dom)

/-- Witness for C2: concrete results in each tier, through the
theorem. -/
theorem C2_risk_level_tiers_witness :
    (analyze_message ([])).risk_level = "LOW" ∧
    (analyze_email ("please pay KES 1500".data) "gmail.com").risk_level = "HIGH" ∧
    (link_ok_result ("http://example.com".data) ("hello world".data) (Except.ok 365)).risk_level = "MEDIUM" :=
  ⟨(C2_risk_level_tiers.1 []).1 (by decide),
   (C2_risk_level_tiers.2.2.1 ("please pay KES 1500".data) "gmail.com").2.2 (by decide),
   (C2_risk_level_tiers.2.1 ("http://example.com".data)
      (Except.ok { status_code := 200, content := ("hello world".data) }) id (Except.ok 365)
      (link_ok_result ("http://example.com".data) ("hello world".data) (Except.ok 365)) rfl).2.1
      (by decide) (by decide)⟩

set_option maxHeartbeats 1000000 in
/-- C7: the message of scenario A matches Payment Request (50),
Urgency Manipulation (25) and Off-Platform Communication (30), an
uncapped total of 105, and yields score 100, level HIGH, with all
three names in detected_patterns. -/
theorem C7_scenario_a :
    (analyze_message ("Pay KES 1000 now via WhatsApp".data)).risk_score = 100 ∧
    (analyze_message ("Pay KES 1000 now via WhatsApp".data)).risk_level = "HIGH" ∧
    (analyze_message ("Pay KES 1000 now via WhatsApp".data)).detected_patterns =
      [paymentRequestRule.name, urgencyRule.name, offPlatformRule.name] ∧
    msg_matched_weight ("Pay KES 1000 now via WhatsApp".data) = 105 ∧
    paymentRequestRule.weight = 50 ∧ urgencyRule.weight = 25 ∧ offPlatformRule.weight = 30 ∧
    paymentRequestRule.name = "Payment Request" ∧ urgencyRule.name = "Urgency Manipulation" ∧
    offPlatformRule.name = "Off-Platform Communication" := by
  refine ⟨?_, ?_, ?_, ?_, rfl, rfl, rfl, rfl, rfl, rfl⟩ <;> decide

/-- C3 counterexample: 304 is not a 2xx status, yet the fetch step
does not fail on it (requests raises only for 4xx and 5xx), so
analyze_link produces an AnalysisResult instead of raising. -/
theorem C3_counterexample :
    ¬ (200 ≤ 304 ∧ 304 ≤ 299) ∧
    analyze_link ("http://example.com".data)
        (Except.ok { status_code := 304, content := [] }) id (Except.ok 365) =
      Except.ok (link_ok_result ("http://example.com".data) [] (Except.ok 365)) :=
  ⟨by omega, rfl⟩

/-- C3 (amended): whenever the page-fetch collaborator raises
(timeout, refused connection) or answers with a 4xx or 5xx status,
analyze_link re-raises the fetch error to its caller and produces no
AnalysisResult. -/
theorem C3_fetch_error_propagates :
    (∀ url ext dm e, analyze_link url (Except.error e) ext dm =
        Except.error ("Could not fetch URL: " ++ e)) ∧
    (∀ url ext dm resp, 400 ≤ resp.status_code → resp.status_code < 600 →
      analyze_link url (Except.ok resp) ext dm =
        Except.error ("Could not fetch URL: " ++ ("HTTP status " ++ toString resp.status_code))) := by
  constructor
  · intro url ext dm e
    exact analyze_link_eq_error rfl
  · intro url ext dm resp h4 h6
    apply analyze_link_eq_error
    have hrs : raise_for_status resp =
        Except.error ("HTTP status " ++ toString resp.status_code) := by
      unfold raise_for_status
      exact if_pos ⟨h4, h6⟩
    show fetch_url_content (Except.ok resp) = _
    simp only [fetch_url_content, hrs]

/-- Witness for C3 at a 404 response. -/
theorem C3_fetch_error_propagates_witness :
    analyze_link ("http://x.com".data)
        (Except.ok { status_code := 404, content := [] }) id (Except.ok 365) =
      Except.error ("Could not fetch URL: " ++ ("HTTP status " ++ toString (404 : Nat))) :=
  C3_fetch_error_propagates.2 ("http://x.com".data) id (Except.ok 365)
    { status_code := 404, content := [] } (by decide) (by decide)

set_option maxHeartbeats 1000000 in
/-- C5 counterexample: the source tests the URL against the literal
https:// case-sensitively, so a URL whose scheme is https written in
upper case still emits the No HTTPS evidence. -/
theorem C5_counterexample :
    lowerL (List.take 8 ("HTTPS://example.com".data)) = "https://".data ∧
    analyze_link ("HTTPS://example.com".data)
        (Except.ok { status_code := 200, content := [] }) id (Except.ok 365) =
      Except.ok (link_ok_result ("HTTPS://example.com".data) [] (Except.ok 365)) ∧
    noHttpsRule.name ∈ (link_ok_result ("HTTPS://example.com".data) [] (Except.ok 365)).detected_patterns :=
  ⟨by decide, rfl, by decide⟩

/-- The No HTTPS name occurs in the link evidence exactly when the
case-sensitive literal prefix test fails; no other step emits it. -/
theorem noHttps_mem_iff (url text : List Char) (dm : Except Unit Nat) :
    (noHttpsRule.name ∈ link_evidence_names url text dm ↔ startsWithL httpsLit url = false) := by
  have hkw : noHttpsRule.name ∉ ((WEBSITE_SCAM_PATTERNS.drop 2).filter (linkKwMatch text)).map Rule.name := by
    intro hmem
    have hsub : noHttpsRule.name ∈ (WEBSITE_SCAM_PATTERNS.drop 2).map Rule.name :=
      List.map_subset Rule.name (List.filter_sublist _).subset hmem
    revert hsub
    decide
  unfold link_evidence_names
  simp only [List.mem_append]
  constructor
  · intro h
    cases hs : startsWithL httpsLit url with
    | false => rfl
    | true =>
        exfalso
        rw [hs] at h
        rcases h with ((h1 | h2) | h3) | h4
        · simp at h1
        · rcases dm with u | age
          · simp at h2
          · by_cases ha : age < 90 <;> simp [ha] at h2 <;> revert h2 <;> decide
        · exact hkw h3
        · by_cases hc : reSearchWords contactTokens text <;> simp [hc] at h4 <;> revert h4 <;> decide
  · intro hs
    rw [hs]
    left
    left
    left
    simp

/-- C5 (amended): for every analyzed link, the No HTTPS evidence
(weight 20) appears in detected_patterns if and only if the URL fails
the case-sensitive startswith test against the literal https:// (so
an upper-case HTTPS:// scheme does emit it); the check itself cannot
fail. -/
theorem C5_no_https_iff :
    ∀ url net ext dm c r, fetch_url_content net = Except.ok c →
      analyze_link url net ext dm = Except.ok r →
      ((noHttpsRule.name ∈ r.detected_patterns ↔ startsWithL httpsLit url = false) ∧
        noHttpsRule.weight = 20) := by
  intro url net ext dm c r _ hr
  rcases analyze_link_ok_inv hr with ⟨c2, _, hre⟩
  subst hre
  rw [link_ok_result_patterns]
  exact ⟨noHttps_mem_iff _ _ _, rfl⟩

/-- Witness for C5 at a lower-case https URL: no evidence emitted. -/
theorem C5_no_https_iff_witness :
    ((noHttpsRule.name ∈ (link_ok_result ("https://safe.com".data) [] (Except.ok 365)).detected_patterns ↔
        startsWithL httpsLit ("https://safe.com".data) = false) ∧
      noHttpsRule.weight = 20) :=
  C5_no_https_iff ("https://safe.com".data)
    (Except.ok { status_code := 200, content := [] }) id (Except.ok 365) []
    (link_ok_result ("https://safe.com".data) [] (Except.ok 365)) rfl rfl

/-- The Newly Registered Domain name is absent from the link evidence
whenever the domain-age outcome is a failure. -/
theorem newDomain_not_mem_error (url text : List Char) :
    newDomainRule.name ∉ link_evidence_names url text (Except.error ()) := by
  unfold link_evidence_names
  intro h
  simp only [List.mem_append] at h
  rcases h with ((h1 | h2) | h3) | h4
  · by_cases hs : startsWithL httpsLit url <;> simp [hs] at h1 <;> revert h1 <;> decide
  · simp at h2
  · have hsub : newDomainRule.name ∈ (WEBSITE_SCAM_PATTERNS.drop 2).map Rule.name :=
      List.map_subset Rule.name (List.filter_sublist _).subset h3
    revert hsub
    decide
  · by_cases hc : reSearchWords contactTokens text <;> simp [hc] at h4 <;> revert h4 <;> decide

/-- C4: when the page fetch succeeds and the domain-age collaborator
fails, the failure is swallowed: analyze_link still returns a result,
the Newly Registered Domain rule adds no evidence, and the remaining
steps (HTTPS check, content keywords, contact check) still execute
and determine the evidence and the score. -/
theorem C4_domain_age_failure_swallowed :
    ∀ url net ext c, fetch_url_content net = Except.ok c →
      (analyze_link url net ext (Except.error ()) =
          Except.ok (link_ok_result url (ext c) (Except.error ())) ∧
        newDomainRule.name ∉ (link_ok_result url (ext c) (Except.error ())).detected_patterns ∧
        (link_ok_result url (ext c) (Except.error ())).detected_patterns =
          (if startsWithL httpsLit url then [] else [noHttpsRule.name]) ++
            ((WEBSITE_SCAM_PATTERNS.drop 2).filter (linkKwMatch (ext c))).map Rule.name ++
            (if reSearchWords contactTokens (ext c) then [] else [noContactRule.name]) ∧
        (link_ok_result url (ext c) (Except.error ())).risk_score =
          min 100 (link_matched_weight url (ext c) (Except.error ()))) := by
  intro url net ext c hf
  refine ⟨analyze_link_eq_ok hf, ?_, ?_, link_ok_result_score _ _ _⟩
  · rw [link_ok_result_patterns]
    exact newDomain_not_mem_error _ _
  · rw [link_ok_result_patterns]
    unfold link_evidence_names
    simp [List.append_assoc]

/-- Witness for C4 at a concrete fetched page. -/
theorem C4_domain_age_failure_swallowed_witness :
    (analyze_link ("http://x.com".data)
        (Except.ok { status_code := 200, content := [] }) id (Except.error ()) =
        Except.ok (link_ok_result ("http://x.com".data) [] (Except.error ())) ∧
      newDomainRule.name ∉ (link_ok_result ("http://x.com".data) [] (Except.error ())).detected_patterns ∧
      (link_ok_result ("http://x.com".data) [] (Except.error ())).detected_patterns =
        (if startsWithL httpsLit ("http://x.com".data) then [] else [noHttpsRule.name]) ++
          ((WEBSITE_SCAM_PATTERNS.drop 2).filter (linkKwMatch [])).map Rule.name ++
          (if reSearchWords contactTokens [] then [] else [noContactRule.name]) ∧
      (link_ok_result ("http://x.com".data) [] (Except.error ())).risk_score =
        min 100 (link_matched_weight ("http://x.com".data) [] (Except.error ()))) :=
  C4_domain_age_failure_swallowed ("http://x.com".data)
    (Except.ok { status_code := 200, content := [] }) id [] rfl

/-- With the threshold test failing, the pure link pipeline cannot
distinguish the stub answer 365 from a failed domain-age lookup. -/
theorem link_ok_result_365 (url text : List Char) :
    link_ok_result url text (Except.ok 365) = link_ok_result url text (Except.error ()) := by
  unfold link_ok_result
  norm_num

/-- C10: the stub domain-age lookup answers 365 days for every domain,
365 is not below the 90-day threshold, analyze_link behaves exactly as
if the domain step had been skipped, and the Newly Registered Domain
name never reaches detected_patterns. -/
theorem C10_new_domain_rule_never_fires :
    ∀ url net ext d,
      (get_domain_age_in_days d = 365 ∧ ¬ (get_domain_age_in_days d < 90)) ∧
      analyze_link url net ext (Except.ok (get_domain_age_in_days d)) =
        analyze_link url net ext (Except.error ()) ∧
      (∀ r, analyze_link url net ext (Except.ok (get_domain_age_in_days d)) = Except.ok r →
        newDomainRule.name ∉ r.detected_patterns) := by
  intro url net ext d
  refine ⟨⟨rfl, by simp [get_domain_age_in_days]⟩, ?_, ?_⟩
  · unfold analyze_link
    cases fetch_url_content net with
    | error e => rfl
    | ok c =>
        simp only [get_domain_age_in_days]
        rw [link_ok_result_365]
  · intro r hr
    rcases analyze_link_ok_inv hr with ⟨c, _, hre⟩
    subst hre
    rw [link_ok_result_patterns]
    show newDomainRule.name ∉ link_evidence_names url (ext c) (Except.ok 365)
    have hsame : link_evidence_names url (ext c) (Except.ok 365) =
        link_evidence_names url (ext c) (Except.error ()) := by
      rw [← link_ok_result_patterns, ← link_ok_result_patterns, link_ok_result_365]
    rw [hsame]
    exact newDomain_not_mem_error _ _

/-- Witness for C10 at a concrete link run. -/
theorem C10_new_domain_rule_never_fires_witness :
    newDomainRule.name ∉
      (link_ok_result ("http://x.com".data) [] (Except.ok 365)).detected_patterns :=
  (C10_new_domain_rule_never_fires ("http://x.com".data)
      (Except.ok { status_code := 200, content := [] }) id "x.com").2.2
    (link_ok_result ("http://x.com".data) [] (Except.ok 365)) rfl

/-- C6: for every message text and catalog rule, a rule carrying a
regex is decided by the case-insensitive regex search alone (its name
reaches detected_patterns exactly when the regex matches, with the
keyword list playing no part), and a rule without a regex by the
case-insensitive any-keyword substring test alone. -/
theorem C6_regex_or_keywords :
    ∀ t r, r ∈ SCAM_PATTERNS →
      (∀ rx, r.regex = some rx →
        (r.name ∈ (analyze_message t).detected_patterns ↔ rx.search t = true)) ∧
      (r.regex = none →
        (r.name ∈ (analyze_message t).detected_patterns ↔
          ∃ k ∈ r.keywords.getD [], containsSub (lowerL k) (lowerL t) = true)) := by
  intro t r hr
  have hmem : r.name ∈ (analyze_message t).detected_patterns ↔ msgMatch t r = true := by
    rw [analyze_message_patterns]
    exact name_mem_filter scam_names_nodup hr _
  constructor
  · intro rx hrx
    rw [hmem]
    unfold msgMatch
    rw [hrx]
  · intro hrx
    rw [hmem]
    unfold msgMatch
    rw [hrx]
    exact List.any_eq_true
/-- Witness for C6: the Off-Platform rule decided by its regex on a
concrete text. -/
theorem C6_regex_or_keywords_witness :
    (offPlatformRule.name ∈ (analyze_message ("join us on telegram please".data)).detected_patterns ↔
      Rgx.search (Rgx.wordAlt ((["whatsapp", "telegram"]).map String.data))
        ("join us on telegram please".data) = true) :=
  (C6_regex_or_keywords ("join us on telegram please".data) offPlatformRule (by decide)).1
    (Rgx.wordAlt ((["whatsapp", "telegram"]).map String.data)) rfl

set_option maxHeartbeats 1000000 in
/-- C8 counterexample: appending the catalog keyword now directly to
the text whatsapp destroys the word boundary the Off-Platform regex
needs, while only the cheaper Urgency rule starts matching; the score
strictly drops from 30 to 25. -/
theorem C8_counterexample :
    ("whatsappnow".data = "whatsapp".data ++ "now".data) ∧
    urgencyRule ∈ SCAM_PATTERNS ∧
    ("now".data ∈ urgencyRule.keywords.getD []) ∧
    (analyze_message ("whatsappnow".data)).risk_score <
      (analyze_message ("whatsapp".data)).risk_score := by
  refine ⟨rfl, by decide, by decide, by decide⟩

/-- C8 (amended): appending a space and then any keyword of the
catalog to a message never lowers the risk score (the space keeps
every word-boundary regex match alive; the counterexample shows that
gluing the keyword on directly can lower it). -/
theorem C8_append_keyword_monotone :
    ∀ t k r, r ∈ SCAM_PATTERNS → k ∈ r.keywords.getD [] →
      (analyze_message t).risk_score ≤ (analyze_message (t ++ ' ' :: k)).risk_score := by
  intro t k r _ _
  rw [analyze_message_score, analyze_message_score]
  apply min_le_min (le_refl 100)
  unfold msg_matched_weight
  exact sum_filter_mono (fun r2 _ h => msgMatch_mono t k r2 h)

/-- Witness for C8 with the keyword now appended after a space. -/
theorem C8_append_keyword_monotone_witness :
    (analyze_message ("hello".data)).risk_score ≤
      (analyze_message ("hello".data ++ ' ' :: ("now".data))).risk_score :=
  C8_append_keyword_monotone ("hello".data) ("now".data) urgencyRule (by decide) (by decide)

/-- C9: analyze_email returns the evidence names as a set (no
duplicates, membership exactly the collected names), while
analyze_message and analyze_link return the evidence names as
collected, in catalog and step order, without a set conversion. -/
theorem C9_pattern_list_shapes :
    (∀ t dom, (analyze_email t dom).detected_patterns.Nodup ∧
      (∀ n, n ∈ (analyze_email t dom).detected_patterns ↔ n ∈ email_evidence_names t dom)) ∧
    (∀ t, (analyze_message t).detected_patterns = (SCAM_PATTERNS.filter (msgMatch t)).map Rule.name) ∧
    (∀ url net ext dm c r, fetch_url_content net = Except.ok c →
      analyze_link url net ext dm = Except.ok r →
      r.detected_patterns = link_evidence_names url (ext c) dm) := by
  refine ⟨?_, analyze_message_patterns, ?_⟩
  · intro t dom
    rw [analyze_email_patterns]
    exact ⟨List.nodup_dedup _, fun n => List.mem_dedup⟩
  · intro url net ext dm c r hf hr
    rcases analyze_link_ok_inv hr with ⟨c2, hf2, hre⟩
    rw [hf] at hf2
    injection hf2 with hc
    subst hc
    subst hre
    exact link_ok_result_patterns _ _ _

/-- Witness for C9 at a concrete link run. -/
theorem C9_pattern_list_shapes_witness :
    (link_ok_result ("http://y.com".data) [] (Except.ok 365)).detected_patterns =
      link_evidence_names ("http://y.com".data) [] (Except.ok 365) :=
  C9_pattern_list_shapes.2.2 ("http://y.com".data)
    (Except.ok { status_code := 200, content := [] }) id (Except.ok 365) []
    (link_ok_result ("http://y.com".data) [] (Except.ok 365)) rfl rfl
